import Mathlib

/-!
Verification development for the jobs-scraper repository.

Shallow embedding of:
  - src/core/rate_limiter.py   (RateLimiter: pacing + semaphore)
  - src/core/repositories.py   (SQLiteRepository upserts, rollback on error)
  - src/core/schemas.py        (JobListingSchema, JobDetailsSchema)
  - src/seek/extractor.py      (SeekExtractor formatting of redux data)
  - src/seek/scraper.py        (pagination, retry decoration, two-phase orchestration)

Machine reals (Python floats for times/delays) are modelled as rationals.
Python datetimes are modelled by an inductive carrying either the normalized
ISO string or the "current time" fallback.  A Python dict read from JSON is
modelled as a structure of Option fields (a missing key is none); dict.get
with a default is Option.getD, and plain subscription of a missing key is an
explicit KeyError.
-/

namespace JobsScraper

/-- Python exceptions relevant to the scraped code paths.  runtimeError carries
the message and the chained cause, which is always present because every
RuntimeError in the source is raised with an explicit from e.
retryError models tenacity.RetryError, which wraps the final failed attempt
when the stop condition is reached and reraise is left at its default False. -/
inductive PyError where
  | indexError
  | keyError (k : String)
  | typeError
  | attributeError
  | valueError
  | runtimeError (msg : String) (cause : PyError)
  | retryError (lastAttempt : PyError)
  | other (msg : String)
deriving DecidableEq, Repr

/-- Rendering of an exception as the text interpolated by f-strings and logs. -/
def pyErrMsg : PyError → String
  | .indexError => "list index out of range"
  | .keyError k => "KeyError: " ++ k
  | .typeError => "TypeError"
  | .attributeError => "AttributeError"
  | .valueError => "ValueError"
  | .runtimeError m _ => m
  | .retryError _ => "RetryError"
  | .other m => m

/-- Python datetime values as produced by SeekExtractor._format_datetime:
either a successfully parsed ISO string (kept verbatim after the Z
normalization) or the datetime.now() fallback taken on a ValueError. -/
inductive PyDatetime where
  | parsed (iso : String)
  | now
deriving DecidableEq, Repr

/-- JobListingSchema from src/core/schemas.py. -/
structure JobListingSchema where
  job_id : String
  title : String
  job_details_url : String
  job_summary : String
  company_name : String
  location : String
  country_code : String
  listing_date : PyDatetime
  salary_label : Option String
  work_type : Option String
  job_classification : Option String
  job_sub_classification : Option String
  work_arrangements : Option String
deriving DecidableEq, Repr

/-- JobDetailsSchema from src/core/schemas.py. -/
structure JobDetailsSchema where
  job_id : String
  status : String
  is_expired : Bool
  details : String
  is_verified : Option Bool
  expires_at : Option PyDatetime
deriving DecidableEq, Repr

/-! ## Extractor input model (the dict decoded from window.SEEK_REDUX_DATA)

Each structure mirrors one nesting level of the JSON object; every field is
Option because any key may be absent from the decoded dict. -/

/-- One entry of a job's "locations" array. -/
structure RawLocation where
  label : Option String
  countryCode : Option String
deriving DecidableEq, Repr, Inhabited

/-- The "classification" sub-object of a classifications entry. -/
structure RawClassDesc where
  description : Option String
deriving DecidableEq, Repr, Inhabited

/-- One entry of a job's "classifications" array. -/
structure RawClassEntry where
  classification : Option RawClassDesc
  subclassification : Option RawClassDesc
deriving DecidableEq, Repr, Inhabited

/-- The "workArrangements" sub-object. -/
structure RawWorkArrangements where
  displayText : Option String
deriving DecidableEq, Repr, Inhabited

/-- One entry of the "jobs" array inside the listing-page redux data. -/
structure RawJob where
  id : Option String
  title : Option String
  teaser : Option String
  companyName : Option String
  locations : Option (List RawLocation)
  listingDate : Option String
  salaryLabel : Option String
  workTypes : Option (List String)
  classifications : Option (List RawClassEntry)
  workArrangements : Option RawWorkArrangements
deriving DecidableEq, Repr, Inhabited

/-- The "expiresAt" sub-object of the detail-page job record. -/
structure RawExpiresAt where
  dateTimeUtc : Option String
deriving DecidableEq, Repr, Inhabited

/-- The "job" record inside the detail-page redux data. -/
structure RawJobDetails where
  id : Option String
  status : Option String
  isExpired : Option Bool
  content : Option String
  isVerified : Option Bool
  expiresAt : Option RawExpiresAt
deriving DecidableEq, Repr, Inhabited

/-- data["results"]["results"] level of the listing redux dict. -/
structure ReduxResultsInner where
  jobs : Option (List RawJob)
deriving DecidableEq, Repr, Inhabited

/-- data["results"] level of the listing redux dict. -/
structure ReduxResultsOuter where
  results : Option ReduxResultsInner
deriving DecidableEq, Repr, Inhabited

/-- data["jobdetails"]["result"] level of the detail redux dict. -/
structure ReduxDetailsInner where
  job : Option RawJobDetails
deriving DecidableEq, Repr, Inhabited

/-- data["jobdetails"] level of the detail redux dict. -/
structure ReduxDetailsOuter where
  result : Option ReduxDetailsInner
deriving DecidableEq, Repr, Inhabited

/-- Top level of the dict returned by _extract_seek_redux_data. -/
structure ReduxData where
  results : Option ReduxResultsOuter
  jobdetails : Option ReduxDetailsOuter
deriving DecidableEq, Repr, Inhabited

/-- External helpers of the extractor that are pure string processing:
validIso decides whether datetime.fromisoformat accepts a string, and
htmlToMd is the _html_to_clean_markdown pipeline (total on strings). -/
structure ExtractEnv where
  validIso : String → Bool
  htmlToMd : String → String

/-- Replacement of every occurrence of the one-character pattern Z by the
string +00:00, the date_str.replace("Z", "+00:00") call of the source
written out over the character list. -/
def replaceZ (s : String) : String :=
  ⟨s.data.flatMap (fun c => if c = 'Z' then "+00:00".data else [c])⟩

/-- SeekExtractor._format_datetime: replace the Z suffix, parse, and fall back
to datetime.now() on a ValueError.  Total on strings; the AttributeError that
a None argument would raise is modelled at each call site, because the
function body dereferences date_str before the try/except ValueError. -/
def format_datetime (validIso : String → Bool) (date_str : String) : PyDatetime :=
  let normalized := replaceZ date_str
  if validIso normalized then .parsed normalized else .now

/-- One element of the comprehension in SeekExtractor._format_job_listings.
Fields are evaluated in the source's keyword-argument order; the three
fallible reads are job.get("locations", [])[0]["countryCode"] (IndexError on
an empty list, KeyError on a missing countryCode), _format_datetime applied
to job.get("listingDate", None) (AttributeError when the key is absent), and
",".join(job.get("workTypes", None)) (TypeError when the key is absent). -/
def format_job_listing (validIso : String → Bool) (job : RawJob) :
    Except PyError JobListingSchema := do
  let job_id := job.id.getD ""
  let title := job.title.getD ""
  let job_details_url := "https://www.seek.co.nz/job/" ++ job_id
  let job_summary := job.teaser.getD ""
  let company_name := job.companyName.getD ""
  let location :=
    String.intercalate "," ((job.locations.getD []).map (fun x => x.label.getD ""))
  let country_code ←
    match job.locations.getD [] with
    | [] => throw PyError.indexError
    | loc0 :: _ =>
      match loc0.countryCode with
      | none => throw (PyError.keyError "countryCode")
      | some c => pure c
  let listing_date ←
    match job.listingDate with
    | none => throw PyError.attributeError
    | some s => pure (format_datetime validIso s)
  let salary_label := job.salaryLabel
  let work_type ←
    match job.workTypes with
    | none => throw PyError.typeError
    | some l => pure (String.intercalate "," l)
  let job_classification :=
    String.intercalate ","
      ((job.classifications.getD []).map
        (fun x => (x.classification.getD default).description.getD ""))
  let job_sub_classification :=
    String.intercalate ","
      ((job.classifications.getD []).map
        (fun x => (x.subclassification.getD default).description.getD ""))
  let work_arrangements := (job.workArrangements.getD default).displayText.getD ""
  pure
    { job_id := job_id
      title := title
      job_details_url := job_details_url
      job_summary := job_summary
      company_name := company_name
      location := location
      country_code := country_code
      listing_date := listing_date
      salary_label := salary_label
      work_type := some work_type
      job_classification := some job_classification
      job_sub_classification := some job_sub_classification
      work_arrangements := some work_arrangements }

/-- SeekExtractor._format_job_listings: the walrus test takes the [] branch
both when the chain of gets yields no jobs key and when the jobs list is
empty (an empty list is falsy); otherwise it builds the comprehension, which
can raise. -/
def format_job_listings (validIso : String → Bool) (data : ReduxData) :
    Except PyError (List JobListingSchema) :=
  let job_list := ((data.results.getD default).results.getD default).jobs.getD []
  match job_list with
  | [] => pure []
  | _ => job_list.mapM (format_job_listing validIso)

/-- SeekExtractor._format_job_details: the chain of gets ends in a default of
None, so a missing job record raises AttributeError at job_details.get("id");
is_expired defaults to True; expires_at raises AttributeError when
dateTimeUtc is absent (None reaches _format_datetime). -/
def format_job_details (env : ExtractEnv) (data : ReduxData) :
    Except PyError JobDetailsSchema := do
  let job_details := ((data.jobdetails.getD default).result.getD default).job
  match job_details with
  | none => throw PyError.attributeError
  | some jd => do
    let expires_at ←
      match (jd.expiresAt.getD default).dateTimeUtc with
      | none => throw PyError.attributeError
      | some s => pure (format_datetime env.validIso s)
    pure
      { job_id := jd.id.getD ""
        status := jd.status.getD ""
        is_expired := jd.isExpired.getD true
        details := env.htmlToMd (jd.content.getD "")
        is_verified := jd.isVerified
        expires_at := some expires_at }

/-- SeekExtractor.extract_job_listings, with _extract_seek_redux_data passed
as an abstract function: its source is total on strings (every failure path,
including a regex miss and a JSON decode error, returns the empty dict), so
the composition's behavior is decided by the formatter. -/
def extract_job_listings (env : ExtractEnv) (redux : String → ReduxData)
    (html : String) : Except PyError (List JobListingSchema) :=
  format_job_listings env.validIso (redux html)

/-- SeekExtractor.extract_job_details under the same redux abstraction. -/
def extract_job_details (env : ExtractEnv) (redux : String → ReduxData)
    (html : String) : Except PyError JobDetailsSchema :=
  format_job_details env (redux html)

/-! ## Repository model (src/core/repositories.py, SQLiteRepository)

The database is a pair of tables keyed by job_id, the primary key used by
every session.get call in the source.  A session's buffered mutations become
visible only at commit; commit (or any session operation) may raise, and the
except branch then rolls the session back, leaving the stored state exactly
as before the call.  The failure is injected as an Option PyError oracle. -/

/-- Stored database state: listing rows and detail rows, each keyed by
job_id. -/
structure DbState where
  listings : List (String × JobListingSchema)
  details : List (String × JobDetailsSchema)
deriving DecidableEq, Repr

instance : EmptyCollection DbState := ⟨⟨[], []⟩⟩

/-- Update-or-insert of one keyed row: when a row with the key exists the
source overwrites every column of it via setattr, otherwise it adds a new
row. -/
def upsertRow {α : Type} (k : String) (v : α) (rows : List (String × α)) :
    List (String × α) :=
  if rows.any (fun r => r.1 = k) then
    rows.map (fun r => if r.1 = k then (k, v) else r)
  else
    rows ++ [(k, v)]

/-- Primary-key lookup, session.get on the model class. -/
def getRow {α : Type} (k : String) (rows : List (String × α)) : Option α :=
  (rows.find? (fun r => r.1 = k)).map Prod.snd

/-- Result of one repository call: the outcome seen by the caller, the stored
state after the call, and the log lines emitted. -/
structure RepoResult where
  outcome : Except PyError Unit
  state : DbState
  logs : List String
deriving Repr

/-- SQLiteRepository.insert_job_listing.  dbErr injects the session failure:
on failure the session is rolled back (state unchanged), the error is logged
with the job identifier, and a RuntimeError chaining the cause is raised; its
message does not include the identifier. -/
def insert_job_listing (dbErr : Option PyError) (listing_schema : JobListingSchema)
    (st : DbState) : RepoResult :=
  match dbErr with
  | some e =>
    { outcome := .error (.runtimeError ("Failed to insert job listing: " ++ pyErrMsg e) e)
      state := st
      logs := ["Failed to insert job listing " ++ listing_schema.job_id ++ ": " ++ pyErrMsg e] }
  | none =>
    { outcome := .ok ()
      state := { st with listings := upsertRow listing_schema.job_id listing_schema st.listings }
      logs := [] }

/-- SQLiteRepository.insert_listing_with_details.  Both upserts are buffered
in one session and committed together: on a session failure neither table
changes (rollback), the error is logged with the listing's job identifier,
and a RuntimeError chaining the cause is raised.  On success the listing row
is keyed by the listing's job_id and the detail row by the detail record's
own job_id (session.get(JobDetailsModel, details_schema.job_id)). -/
def insert_listing_with_details (dbErr : Option PyError)
    (listing_schema : JobListingSchema) (details_schema : JobDetailsSchema)
    (st : DbState) : RepoResult :=
  match dbErr with
  | some e =>
    { outcome := .error (.runtimeError ("Failed to insert job data: " ++ pyErrMsg e) e)
      state := st
      logs := ["Failed to insert job " ++ listing_schema.job_id ++ ": " ++ pyErrMsg e] }
  | none =>
    { outcome := .ok ()
      state :=
        { listings := upsertRow listing_schema.job_id listing_schema st.listings
          details := upsertRow details_schema.job_id details_schema st.details }
      logs := [] }

/-- SQLiteRepository.get_listings_missing_details: listings whose job_id has
no row in the details table (LEFT OUTER JOIN filtered on a NULL details
key). -/
def get_listings_missing_details (st : DbState) : List JobListingSchema :=
  (st.listings.filter (fun r => ¬ st.details.any (fun d => d.1 = r.1))).map Prod.snd

/-! ## Orchestrator model (src/seek/scraper.py)

The per-listing detail fetch (scrape_job_details after retry decoration) is
abstracted as a function from the listing to the outcome, and the repository
failure oracle as a function from the listing to an optional error. -/

/-- Body of the for-loop in SeekScraper.scrape_details.  Each iteration is
wrapped in try/except Exception: any failure of the fetch or of the combined
upsert is logged with the job identifier and the loop continues. -/
def scrape_details_loop (fetch : JobListingSchema → Except PyError JobDetailsSchema)
    (dbErr : JobListingSchema → Option PyError) :
    List JobListingSchema → DbState → DbState × List String
  | [], st => (st, [])
  | listing :: rest, st =>
    let step : DbState × List String :=
      match fetch listing with
      | .error e =>
        (st, ["Failed to process job " ++ listing.job_id ++ ": " ++ pyErrMsg e])
      | .ok details =>
        let r := insert_listing_with_details (dbErr listing) listing details st
        match r.outcome with
        | .ok _ => (r.state, r.logs)
        | .error e =>
          (r.state, r.logs ++ ["Failed to process job " ++ listing.job_id ++ ": " ++ pyErrMsg e])
    let tail := scrape_details_loop fetch dbErr rest step.1
    (tail.1, step.2 ++ tail.2)

/-- SeekScraper.scrape_details: query the listings missing details, then run
the guarded loop.  The phase itself completes normally whatever the per-item
outcomes are, so its result type records that no exception escapes. -/
def scrape_details (fetch : JobListingSchema → Except PyError JobDetailsSchema)
    (dbErr : JobListingSchema → Option PyError) (st : DbState) :
    Except PyError (DbState × List String) :=
  .ok (scrape_details_loop fetch dbErr (get_listings_missing_details st) st)

/-- Body of the async-for loop in SeekScraper.scrape_listings: each yielded
listing is upserted with no try/except around it, so the first repository
failure propagates out of the phase. -/
def scrape_listings_loop (dbErr : JobListingSchema → Option PyError) :
    List JobListingSchema → DbState → Except PyError DbState
  | [], st => .ok st
  | listing :: rest, st =>
    let r := insert_job_listing (dbErr listing) listing st
    match r.outcome with
    | .error e => .error e
    | .ok _ => scrape_listings_loop dbErr rest r.state

/-! ## RateLimiter model (src/core/rate_limiter.py)

Times and delays are rationals.  One acquire call is driven by two inputs
resolved at run time: now, the time.time() reading on entry, and d, the
random.uniform(min_delay, max_delay) draw.  asyncio.sleep(w) is modelled as
exact: the task wakes at now + w, which is the second time.time() reading. -/

/-- Mutable numeric state of a RateLimiter (the semaphore is modelled
separately as a trace machine, see below). -/
structure RateLimiterState where
  min_delay : ℚ
  max_delay : ℚ
  last_request_time : ℚ
  request_count : ℕ
  total_wait_time : ℚ
deriving DecidableEq, Repr

/-- RateLimiter.__init__: delays from configuration, last_request_time = 0.0,
zeroed counters. -/
def RateLimiter.init (min_delay max_delay : ℚ) : RateLimiterState :=
  { min_delay := min_delay
    max_delay := max_delay
    last_request_time := 0
    request_count := 0
    total_wait_time := 0 }

/-- RateLimiter.acquire body (inside the semaphore): compare the time since
the last request with the drawn delay, sleep the difference when short,
then stamp the current time and bump the counter.  Returns the new state and
whether a pacing sleep happened. -/
def RateLimiter.acquire (s : RateLimiterState) (now d : ℚ) :
    RateLimiterState × Bool :=
  let time_since_last := now - s.last_request_time
  if time_since_last < d then
    let wait_time := d - time_since_last
    ({ s with
        total_wait_time := s.total_wait_time + wait_time
        last_request_time := now + wait_time
        request_count := s.request_count + 1 }, true)
  else
    ({ s with
        last_request_time := now
        request_count := s.request_count + 1 }, false)

/-- Sequential acquire calls: fold over the list of (now, delay) inputs,
counting how many calls slept. -/
def RateLimiter.applyAcquires (s : RateLimiterState) :
    List (ℚ × ℚ) → RateLimiterState × ℕ
  | [] => (s, 0)
  | (now, d) :: rest =>
    let step := RateLimiter.acquire s now d
    let tail := RateLimiter.applyAcquires step.1 rest
    (tail.1, (if step.2 then 1 else 0) + tail.2)

/-- The dict returned by RateLimiter.get_stats. -/
structure RateLimiterStats where
  request_count : ℕ
  total_wait_time : ℚ
  avg_wait_time : ℚ
deriving DecidableEq, Repr

/-- RateLimiter.get_stats: count, cumulative wait, and cumulative wait
divided by max(count, 1). -/
def RateLimiter.get_stats (s : RateLimiterState) : RateLimiterStats :=
  { request_count := s.request_count
    total_wait_time := s.total_wait_time
    avg_wait_time := s.total_wait_time / (max s.request_count 1 : ℕ) }

/-! ## Semaphore scope model

In the source, async with self.semaphore spans only the body of acquire();
the slot is released when acquire returns, and the guarded page fetch at the
call sites in scrape_job_listing / scrape_job_details runs after that.  Each
caller task therefore moves through four program points:
  0 = before acquire, 1 = inside acquire (slot held),
  2 = in the guarded fetch (critical section), 3 = done.
A scheduler interleaves tasks; entering point 1 requires a free slot. -/

/-- Number of tasks currently holding the semaphore (inside acquire). -/
def semHolders (pcs : List ℕ) : ℕ := pcs.countP (fun p => p = 1)

/-- Number of tasks currently inside their guarded fetch. -/
def inCritical (pcs : List ℕ) : ℕ := pcs.countP (fun p => p = 2)

/-- One scheduler step: advance task i by one program point.  Entering
acquire needs semHolders < max_concurrent; leaving acquire releases the slot
before the fetch begins; finishing the fetch ends the task.  none means the
step is not enabled (or the task id is out of range). -/
def semStep (max_concurrent : ℕ) (pcs : List ℕ) (i : ℕ) : Option (List ℕ) :=
  (pcs[i]?).bind (fun cur =>
    if cur = 0 then
      (if semHolders pcs < max_concurrent then some (pcs.set i 1) else none)
    else if cur = 1 then some (pcs.set i 2)
    else if cur = 2 then some (pcs.set i 3)
    else none)

/-- Run a schedule (a list of task ids) from a task configuration; none when
some step of the schedule is not enabled. -/
def semRun (max_concurrent : ℕ) (pcs : List ℕ) : List ℕ → Option (List ℕ)
  | [] => some pcs
  | i :: rest =>
    match semStep max_concurrent pcs i with
    | none => none
    | some pcs2 => semRun max_concurrent pcs2 rest

/-! ## Retry model (tenacity decoration in src/seek/scraper.py)

retry(stop=stop_after_attempt(3), wait=wait_fixed(5)) with reraise left at
its default False: run the operation; after a failed attempt, if the stop
condition is not yet reached sleep the fixed wait and rerun, otherwise raise
RetryError wrapping the last failure.  The operation is indexed by the
1-based attempt number so a flaky step can behave differently per attempt. -/

/-- Observable outcome of a retried call: the result, the number of
invocations made, and the sleeps performed between attempts (seconds). -/
structure RetryTrace (α : Type) where
  result : Except PyError α
  attempts : ℕ
  waits : List ℕ
deriving Repr

/-- Recursion over the remaining attempt budget; attempt is the 1-based
index of the invocation about to run. -/
def retryGo {α : Type} (op : ℕ → Except PyError α) (wait : ℕ) :
    (attempt : ℕ) → (remaining : ℕ) → RetryTrace α
  | _, 0 => { result := .error (.other "no attempts configured"), attempts := 0, waits := [] }
  | attempt, remaining + 1 =>
    match op attempt with
    | .ok a => { result := .ok a, attempts := attempt, waits := [] }
    | .error e =>
      match remaining with
      | 0 => { result := .error (.retryError e), attempts := attempt, waits := [] }
      | r + 1 =>
        let t := retryGo op wait (attempt + 1) (r + 1)
        { result := t.result, attempts := t.attempts, waits := wait :: t.waits }

/-- The tenacity combinator as configured in the source: a fixed attempt cap
and a fixed inter-attempt wait. -/
def tenacity_retry {α : Type} (maxAttempts wait : ℕ) (op : ℕ → Except PyError α) :
    RetryTrace α :=
  retryGo op wait 1 maxAttempts

/-- Try body of SeekScraper.scrape_job_listing for one attempt: the page
fetch-and-extract step either yields the listings or raises, and the except
branch logs the page number and reraises RuntimeError chaining the cause.
The raised message interpolates only the original exception, not the page
number. -/
def scrape_job_listing_attempt
    (pageFetch : ℕ → ℕ → Except PyError (List JobListingSchema))
    (page_number : ℕ) (attempt : ℕ) : Except PyError (List JobListingSchema) :=
  match pageFetch page_number attempt with
  | .ok v => .ok v
  | .error e => .error (.runtimeError ("Failed to scrape job listings: " ++ pyErrMsg e) e)

/-- The log line emitted by the except branch before reraising; this is where
the page number appears. -/
def scrape_job_listing_log (page_number : ℕ) (e : PyError) : String :=
  "Failed to scrape job listings on page " ++ toString page_number ++ ": " ++ pyErrMsg e

/-- SeekScraper.scrape_job_listing: the try body under the tenacity
decoration with 3 attempts and a 5 second fixed wait. -/
def scrape_job_listing (pageFetch : ℕ → ℕ → Except PyError (List JobListingSchema))
    (page_number : ℕ) : RetryTrace (List JobListingSchema) :=
  tenacity_retry 3 5 (scrape_job_listing_attempt pageFetch page_number)

/-- Try body of SeekScraper.scrape_job_details for one attempt, with the same
wrap-and-reraise shape; the raised message interpolates only the original
exception, not the URL. -/
def scrape_job_details_attempt
    (detailFetch : String → ℕ → Except PyError JobDetailsSchema)
    (url : String) (attempt : ℕ) : Except PyError JobDetailsSchema :=
  match detailFetch url attempt with
  | .ok v => .ok v
  | .error e => .error (.runtimeError ("Failed to scrape job details: " ++ pyErrMsg e) e)

/-- SeekScraper.scrape_job_details under the same decoration. -/
def scrape_job_details (detailFetch : String → ℕ → Except PyError JobDetailsSchema)
    (url : String) : RetryTrace JobDetailsSchema :=
  tenacity_retry 3 5 (scrape_job_details_attempt detailFetch url)

/-! ## Pagination model (SeekScraper.generate_job_listings)

The generator loops from page 1; after yielding a page's records it continues
to the next page exactly when the page held 22 records.  The loop has no
bound in the source, so the model takes a fuel argument strictly larger than
the number of fetches of the run being described; fuel 0 returns an empty
run and stands for no observation. -/

/-- Drain of the generator from a given page number: the records yielded in
order, paired with the number of page fetches issued. -/
def generate_job_listings {α : Type} (fetchPage : ℕ → List α) :
    (fuel : ℕ) → (page_number : ℕ) → List α × ℕ
  | 0, _ => ([], 0)
  | fuel + 1, page_number =>
    let job_listings := fetchPage page_number
    if job_listings.length = 22 then
      let rest := generate_job_listings fetchPage fuel (page_number + 1)
      (job_listings ++ rest.1, rest.2 + 1)
    else
      (job_listings, 1)

/-- The fake page source of the pagination-exhaustion property: full pages of
22 on pages 1 and 2, then 5 records on page 3. -/
def fakeSource3 : ℕ → List ℕ
  | 1 => List.range 22
  | 2 => List.range 22
  | 3 => List.range 5
  | _ => []

/-- The fake page source of the zero-record-termination property. -/
def emptySource : ℕ → List ℕ := fun _ => []

/-! ## Concrete sample data for witnesses and counterexamples -/

/-- Boolean well-formedness of a raw job entry: the reads of
_format_job_listings that can raise all succeed exactly when the entry has a
nonempty locations array whose first element carries a countryCode, a
listingDate string, and a workTypes array. -/
def RawJob.wf (j : RawJob) : Bool :=
  (match j.locations with
   | some (loc0 :: _) => loc0.countryCode.isSome
   | _ => false)
  && j.listingDate.isSome && j.workTypes.isSome

/-- A pages-concatenation helper: the records of pages start, start+1, ...,
start+n-1 in page order, each page's records in extraction order. -/
def pagesConcat {α : Type} (fetchPage : ℕ → List α) (start : ℕ) : ℕ → List α
  | 0 => []
  | n + 1 => fetchPage start ++ pagesConcat fetchPage (start + 1) n

/-- Extraction environment with a trivially accepting ISO parser and the
identity markdown conversion. -/
def envId : ExtractEnv := { validIso := fun _ => true, htmlToMd := id }

/-- A listing record with identifier j1. -/
def listingA : JobListingSchema :=
  { job_id := "j1", title := "t1", job_details_url := "https://www.seek.co.nz/job/j1"
    job_summary := "s1", company_name := "c1", location := "Auckland"
    country_code := "NZ", listing_date := .now, salary_label := none
    work_type := some "Full time", job_classification := some "IT"
    job_sub_classification := some "Dev", work_arrangements := some "Remote" }

/-- A second record with the same identifier j1 but different field values. -/
def listingB : JobListingSchema :=
  { listingA with title := "t2", job_summary := "s2", company_name := "c2" }

/-- A listing record with a different identifier j2. -/
def listingC : JobListingSchema :=
  { listingA with job_id := "j2", job_details_url := "https://www.seek.co.nz/job/j2" }

/-- A detail record keyed j1. -/
def detailsA : JobDetailsSchema :=
  { job_id := "j1", status := "Active", is_expired := false, details := "body"
    is_verified := none, expires_at := none }

/-- A stored state holding exactly the listing j1 and no details. -/
def stJ1 : DbState := { listings := [("j1", listingA)], details := [] }

/-- A raw job entry with every key absent, as decoded from the JSON object
with no fields. -/
def emptyJob : RawJob :=
  { id := none, title := none, teaser := none, companyName := none
    locations := none, listingDate := none, salaryLabel := none
    workTypes := none, classifications := none, workArrangements := none }

/-- Listing-page redux data whose jobs array holds the single empty entry. -/
def dataBad : ReduxData :=
  { results := some { results := some { jobs := some [emptyJob] } }
    jobdetails := none }

/-- The raw detail-page job record carrying the identifier j2. -/
def rawDetailsB : RawJobDetails :=
  { id := some "j2", status := some "Active", isExpired := some false
    content := some "body", isVerified := none
    expiresAt := some { dateTimeUtc := some "2026-01-01T00:00:00Z" } }

/-- Detail-page redux data whose embedded job carries the identifier j2. -/
def detailReduxB : ReduxData :=
  { results := none
    jobdetails := some { result := some { job := some rawDetailsB } } }

/-- The detail record format_job_details produces from detailReduxB. -/
def detailsB : JobDetailsSchema :=
  { job_id := "j2", status := "Active", is_expired := false, details := "body"
    is_verified := none, expires_at := some (.parsed "2026-01-01T00:00:00+00:00") }

/-- A detail fetch that echoes the listing's identifier into the detail
record, as well-behaved content does. -/
def fetchSame (l : JobListingSchema) : Except PyError JobDetailsSchema :=
  .ok { job_id := l.job_id, status := "", is_expired := true, details := ""
        is_verified := none, expires_at := none }

/-- A page fetch failing on every attempt with a TypeError. -/
def failFetch : ℕ → ℕ → Except PyError (List JobListingSchema) :=
  fun _ _ => .error PyError.typeError

/-- A raw job entry carrying every field the formatter dereferences. -/
def goodJob : RawJob :=
  { id := some "j9", title := some "T", teaser := some "teaser"
    companyName := some "C"
    locations := some [{ label := some "Auckland", countryCode := some "NZ" }]
    listingDate := some "2026-01-01T00:00:00Z", salaryLabel := none
    workTypes := some ["Full time"], classifications := none
    workArrangements := none }

/-- Listing-page redux data holding the single well-formed entry. -/
def dataGood : ReduxData :=
  { results := some { results := some { jobs := some [goodJob] } }
    jobdetails := none }

/-! # Theorems -/

/-- A generator run that sees i full pages from page start and then a short
page yields the pages start .. start+i concatenated in order and issues i+1
fetches, for any fuel exceeding i. -/
theorem generate_job_listings_run {α : Type} (fetchPage : ℕ → List α) :
    ∀ (i start fuel : ℕ),
      (∀ j, j < i → (fetchPage (start + j)).length = 22) →
      (fetchPage (start + i)).length ≠ 22 →
      i < fuel →
      generate_job_listings fetchPage fuel start
        = (pagesConcat fetchPage start (i + 1), i + 1) := by
  intro i
  induction i with
  | zero =>
    intro start fuel hfull hshort hfuel
    match fuel, hfuel with
    | f + 1, _ =>
      rw [Nat.add_zero] at hshort
      simp [generate_job_listings, pagesConcat, hshort]
  | succ k ih =>
    intro start fuel hfull hshort hfuel
    match fuel, hfuel with
    | f + 1, hfuel =>
      have h0 : (fetchPage start).length = 22 := by
        have h := hfull 0 (Nat.succ_pos k)
        rwa [Nat.add_zero] at h
      have ihx := ih (start + 1) f
        (fun j hj => by
          have h := hfull (j + 1) (by omega)
          have harith : start + (j + 1) = start + 1 + j := by omega
          rwa [harith] at h)
        (by
          have harith : start + (k + 1) = start + 1 + k := by omega
          rwa [harith] at hshort)
        (by omega)
      simp [generate_job_listings, h0, ihx, pagesConcat]

/-- C4: the pagination engine starts at page 1, yields every record of each
fetched page in extraction order, continues exactly when a page held 22
records, and stops otherwise; on the 22/22/5 fake source it yields 49
records with 3 fetches, and on an all-empty source it yields nothing with
1 fetch. -/
theorem pagination_engine_correct :
    (∀ {α : Type} (fetchPage : ℕ → List α) (i fuel : ℕ),
      (∀ j, j < i → (fetchPage (1 + j)).length = 22) →
      (fetchPage (1 + i)).length ≠ 22 →
      i < fuel →
      generate_job_listings fetchPage fuel 1
        = (pagesConcat fetchPage 1 (i + 1), i + 1))
    ∧ ((generate_job_listings fakeSource3 10 1).1.length = 49
        ∧ (generate_job_listings fakeSource3 10 1).2 = 3)
    ∧ generate_job_listings emptySource 10 1 = ([], 1) :=
  ⟨fun fetchPage i fuel hfull hshort hfuel =>
      generate_job_listings_run fetchPage i 1 fuel hfull hshort hfuel,
   ⟨rfl, rfl⟩, rfl⟩

/-- Witness for C4 at the 22/22/5 source: the general part applied with two
full pages, the short third page, and fuel 10. -/
theorem pagination_engine_correct_witness :
    generate_job_listings fakeSource3 10 1 = (pagesConcat fakeSource3 1 3, 3) :=
  pagination_engine_correct.1 fakeSource3 2 10 (by decide) (by decide) (by decide)

/-- Every acquire call increments the request counter by one, whether or not
it sleeps. -/
theorem acquire_request_count (s : RateLimiterState) (now d : ℚ) :
    ((RateLimiter.acquire s now d).1).request_count = s.request_count + 1 := by
  unfold RateLimiter.acquire
  by_cases h : now - s.last_request_time < d
  · simp only [h, if_true]
  · simp only [h, if_false]

/-- A run of acquire calls adds exactly one to the counter per call. -/
theorem applyAcquires_request_count :
    ∀ (l : List (ℚ × ℚ)) (s : RateLimiterState),
      ((RateLimiter.applyAcquires s l).1).request_count = s.request_count + l.length := by
  intro l
  induction l with
  | nil => intro s; rfl
  | cons hd tl ih =>
    intro s
    obtain ⟨now, d⟩ := hd
    have h := ih (RateLimiter.acquire s now d).1
    simp only [RateLimiter.applyAcquires]
    rw [h, acquire_request_count]
    simp [Nat.add_assoc, Nat.add_comm 1 tl.length]

/-- A run of acquire calls sleeps at most once per call. -/
theorem applyAcquires_sleep_le :
    ∀ (l : List (ℚ × ℚ)) (s : RateLimiterState),
      (RateLimiter.applyAcquires s l).2 ≤ l.length := by
  intro l
  induction l with
  | nil => intro s; exact Nat.le_refl 0
  | cons hd tl ih =>
    intro s
    obtain ⟨now, d⟩ := hd
    simp only [RateLimiter.applyAcquires, List.length_cons]
    have h := ih (RateLimiter.acquire s now d).1
    cases (RateLimiter.acquire s now d).2 <;> simp <;> omega

/-- C10: on a fresh limiter the last-request timestamp is 0, so a first call
whose clock reading is at least max_delay never sleeps for any drawn delay in
the configured interval; consequently N sequential calls sleep at most N-1
times and count exactly N requests. -/
theorem first_acquire_never_sleeps (mn mx now1 d1 : ℚ) (rest : List (ℚ × ℚ))
    (_hmn : mn ≤ d1) (hd1 : d1 ≤ mx) (hnow : mx ≤ now1) :
    (RateLimiter.acquire (RateLimiter.init mn mx) now1 d1).2 = false
    ∧ ((RateLimiter.applyAcquires (RateLimiter.init mn mx) ((now1, d1) :: rest)).1).request_count
        = rest.length + 1
    ∧ (RateLimiter.applyAcquires (RateLimiter.init mn mx) ((now1, d1) :: rest)).2
        ≤ rest.length := by
  have hno : ¬ (now1 - (RateLimiter.init mn mx).last_request_time < d1) := by
    simp only [RateLimiter.init, sub_zero]
    exact not_lt.mpr (le_trans hd1 hnow)
  have hfirst : (RateLimiter.acquire (RateLimiter.init mn mx) now1 d1).2 = false := by
    unfold RateLimiter.acquire
    rw [if_neg hno]
  refine ⟨hfirst, ?_, ?_⟩
  · rw [applyAcquires_request_count]
    simp [RateLimiter.init, List.length_cons]
  · simp only [RateLimiter.applyAcquires, hfirst]
    have h := applyAcquires_sleep_le rest (RateLimiter.acquire (RateLimiter.init mn mx) now1 d1).1
    simpa using h

/-- Witness for C10: min_delay 2, max_delay 4, a first reading of 100 with a
drawn delay of 3, followed by one more call. -/
theorem first_acquire_never_sleeps_witness :
    (RateLimiter.acquire (RateLimiter.init 2 4) 100 3).2 = false
    ∧ ((RateLimiter.applyAcquires (RateLimiter.init 2 4) ((100, 3) :: [(103, 2)])).1).request_count
        = 2
    ∧ (RateLimiter.applyAcquires (RateLimiter.init 2 4) ((100, 3) :: [(103, 2)])).2 ≤ 1 :=
  first_acquire_never_sleeps 2 4 100 3 [(103, 2)]
    (by norm_num) (by norm_num) (by norm_num)

/-- C8: get_stats reports the request count, the cumulative wait, and an
average equal to the cumulative wait divided by max(count, 1); the divisor is
at least one, and after zero acquire calls the average is 0 rather than a
division-by-zero failure. -/
theorem get_stats_correct (mn mx : ℚ) (l : List (ℚ × ℚ)) :
    (RateLimiter.get_stats ((RateLimiter.applyAcquires (RateLimiter.init mn mx) l).1)).request_count
        = ((RateLimiter.applyAcquires (RateLimiter.init mn mx) l).1).request_count
    ∧ (RateLimiter.get_stats ((RateLimiter.applyAcquires (RateLimiter.init mn mx) l).1)).total_wait_time
        = ((RateLimiter.applyAcquires (RateLimiter.init mn mx) l).1).total_wait_time
    ∧ (RateLimiter.get_stats ((RateLimiter.applyAcquires (RateLimiter.init mn mx) l).1)).avg_wait_time
          * ((max ((RateLimiter.applyAcquires (RateLimiter.init mn mx) l).1).request_count 1 : ℕ) : ℚ)
        = ((RateLimiter.applyAcquires (RateLimiter.init mn mx) l).1).total_wait_time
    ∧ (l = [] →
        RateLimiter.get_stats ((RateLimiter.applyAcquires (RateLimiter.init mn mx) l).1)
          = { request_count := 0, total_wait_time := 0, avg_wait_time := 0 }) := by
  refine ⟨rfl, rfl, ?_, ?_⟩
  · apply div_mul_cancel₀
    have h1 : 1 ≤ max ((RateLimiter.applyAcquires (RateLimiter.init mn mx) l).1).request_count 1 :=
      le_max_right _ _
    have : (0 : ℚ) < ((max ((RateLimiter.applyAcquires (RateLimiter.init mn mx) l).1).request_count 1 : ℕ) : ℚ) := by
      exact_mod_cast Nat.lt_of_lt_of_le Nat.zero_lt_one h1
    exact ne_of_gt this
  · intro hl
    subst hl
    simp [RateLimiter.applyAcquires, RateLimiter.init, RateLimiter.get_stats]

/-- Witness for C8 at the empty call list: average wait 0 on zero requests. -/
theorem get_stats_correct_witness :
    RateLimiter.get_stats ((RateLimiter.applyAcquires (RateLimiter.init 2 4) []).1)
      = { request_count := 0, total_wait_time := 0, avg_wait_time := 0 } :=
  (get_stats_correct 2 4 []).2.2.2 rfl

/-- Rows whose key is absent filter to nothing. -/
theorem filter_eq_nil_of_not_mem {α : Type} (k : String) (rows : List (String × α))
    (h : k ∉ rows.map Prod.fst) :
    rows.filter (fun r => r.1 = k) = [] := by
  apply List.filter_eq_nil_iff.mpr
  intro r hr
  simp only [decide_eq_true_eq]
  intro heq
  exact h (List.mem_map.mpr ⟨r, hr, heq⟩)

/-- Replacing the entry of an absent key changes nothing. -/
theorem map_replace_of_not_mem {α : Type} (k : String) (v : α)
    (rows : List (String × α)) (h : k ∉ rows.map Prod.fst) :
    rows.map (fun r => if r.1 = k then (k, v) else r) = rows := by
  induction rows with
  | nil => rfl
  | cons a tl ih =>
    have hsplit : ¬ (k = a.1 ∨ k ∈ tl.map Prod.fst) := by
      simpa [List.map_cons, List.mem_cons] using h
    obtain ⟨h1, h2⟩ := not_or.mp hsplit
    rw [List.map_cons, if_neg (fun hk => h1 hk.symm), ih h2]

/-- When the key occurs in a list with pairwise-distinct keys, overwriting the
matching entry and filtering by the key leaves exactly the new row. -/
theorem map_replace_filter {α : Type} (k : String) (v : α) :
    ∀ (rows : List (String × α)),
      (rows.map Prod.fst).Nodup → k ∈ rows.map Prod.fst →
      (rows.map (fun r => if r.1 = k then (k, v) else r)).filter (fun r => r.1 = k)
        = [(k, v)] := by
  intro rows
  induction rows with
  | nil => intro _ hmem; simp at hmem
  | cons a tl ih =>
    intro hnd hmem
    rw [List.map_cons] at hnd
    have hnd2 := List.nodup_cons.mp hnd
    by_cases hak : a.1 = k
    · have hknotin : k ∉ tl.map Prod.fst := by rw [← hak]; exact hnd2.1
      rw [List.map_cons, if_pos hak, List.filter_cons]
      have hkeep : decide ((k, v).1 = k) = true := by simp
      rw [if_pos hkeep]
      rw [map_replace_of_not_mem k v tl hknotin,
        filter_eq_nil_of_not_mem k tl hknotin]
    · have hmem2 : k ∈ tl.map Prod.fst := by
        rw [List.map_cons] at hmem
        rcases List.mem_cons.mp hmem with h | h
        · exact absurd h.symm hak
        · exact h
      rw [List.map_cons, if_neg hak, List.filter_cons]
      have hdrop : ¬ (decide (a.1 = k) = true) := by simpa using hak
      rw [if_neg hdrop]
      exact ih hnd2.2 hmem2

/-- Filtering an upserted row list by the upserted key leaves exactly the new
row, provided the stored keys are pairwise distinct (the primary-key
invariant of the job_id column). -/
theorem upsertRow_filter {α : Type} (k : String) (v : α) (rows : List (String × α))
    (hnd : (rows.map Prod.fst).Nodup) :
    (upsertRow k v rows).filter (fun r => r.1 = k) = [(k, v)] := by
  unfold upsertRow
  by_cases hany : rows.any (fun r => r.1 = k)
  · rw [if_pos hany]
    have hmem : k ∈ rows.map Prod.fst := by
      rcases List.any_eq_true.mp hany with ⟨r, hr, hrk⟩
      exact List.mem_map.mpr ⟨r, hr, by simpa using hrk⟩
    exact map_replace_filter k v rows hnd hmem
  · rw [if_neg hany]
    have hnotmem : k ∉ rows.map Prod.fst := by
      intro hk
      rcases List.mem_map.mp hk with ⟨r, hr, hrk⟩
      exact hany (List.any_eq_true.mpr ⟨r, hr, by simpa using hrk⟩)
    rw [List.filter_append, filter_eq_nil_of_not_mem k rows hnotmem]
    simp

/-- Upserting preserves the pairwise distinctness of the stored keys. -/
theorem upsertRow_nodup {α : Type} (k : String) (v : α) (rows : List (String × α))
    (hnd : (rows.map Prod.fst).Nodup) :
    ((upsertRow k v rows).map Prod.fst).Nodup := by
  unfold upsertRow
  by_cases hany : rows.any (fun r => r.1 = k)
  · rw [if_pos hany]
    have hkeys : (rows.map (fun r => if r.1 = k then (k, v) else r)).map Prod.fst
        = rows.map Prod.fst := by
      rw [List.map_map]
      apply List.map_congr_left
      intro r _
      by_cases hrk : r.1 = k
      · simp [hrk]
      · simp [hrk]
    rw [hkeys]
    exact hnd
  · rw [if_neg hany]
    have hnotmem : k ∉ rows.map Prod.fst := by
      intro hk
      rcases List.mem_map.mp hk with ⟨r, hr, hrk⟩
      exact hany (List.any_eq_true.mpr ⟨r, hr, by simpa using hrk⟩)
    rw [List.map_append]
    simp only [List.map_cons, List.map_nil]
    exact List.Nodup.append hnd (List.nodup_singleton k)
      (by simpa [List.disjoint_singleton] using hnotmem)

/-- C7: upserting two listing records with the same identifier into any store
whose keys are distinct leaves exactly one row for that identifier, holding
the second record's field values. -/
theorem upsert_overwrites_by_identifier (st : DbState) (r1 r2 : JobListingSchema)
    (_hid : r1.job_id = r2.job_id)
    (hnd : (st.listings.map Prod.fst).Nodup) :
    ((insert_job_listing none r2 (insert_job_listing none r1 st).state).state).listings.filter
        (fun row => row.1 = r2.job_id) = [(r2.job_id, r2)] := by
  show (upsertRow r2.job_id r2 (upsertRow r1.job_id r1 st.listings)).filter
      (fun row => row.1 = r2.job_id) = [(r2.job_id, r2)]
  exact upsertRow_filter r2.job_id r2 _ (upsertRow_nodup r1.job_id r1 st.listings hnd)

/-- Witness for C7: records t1 and t2 under the shared identifier j1 in the
store already holding j1. -/
theorem upsert_overwrites_by_identifier_witness :
    ((insert_job_listing none listingB (insert_job_listing none listingA stJ1).state).state).listings.filter
        (fun row => row.1 = listingB.job_id) = [(listingB.job_id, listingB)] :=
  upsert_overwrites_by_identifier stJ1 listingA listingB rfl (by decide)

/-- C9 (amended): when a session failure hits either insert, the rollback
leaves the stored state exactly as before the call, the re-raised
RuntimeError chains the original cause, and the failing job's identifier is
recorded in the log line; the re-raised message itself names only the
operation. -/
theorem repository_rollback_on_error (st : DbState) (listing : JobListingSchema)
    (details : JobDetailsSchema) (e : PyError) :
    ((insert_listing_with_details (some e) listing details st).state = st
      ∧ (insert_listing_with_details (some e) listing details st).outcome
          = .error (.runtimeError ("Failed to insert job data: " ++ pyErrMsg e) e)
      ∧ (insert_listing_with_details (some e) listing details st).logs
          = ["Failed to insert job " ++ listing.job_id ++ ": " ++ pyErrMsg e])
    ∧ ((insert_job_listing (some e) listing st).state = st
      ∧ (insert_job_listing (some e) listing st).outcome
          = .error (.runtimeError ("Failed to insert job listing: " ++ pyErrMsg e) e)
      ∧ (insert_job_listing (some e) listing st).logs
          = ["Failed to insert job listing " ++ listing.job_id ++ ": " ++ pyErrMsg e]) :=
  ⟨⟨rfl, rfl, rfl⟩, ⟨rfl, rfl, rfl⟩⟩

/-- Counterexample to C9 as stated: the exception re-raised to the caller is
identical for two different failing identifiers, so it is not wrapped with
the failing job's identifier (the identifier appears only in the log). -/
theorem repository_error_lacks_identifier :
    (insert_job_listing (some (PyError.other "disk full")) listingA stJ1).outcome
        = (insert_job_listing (some (PyError.other "disk full")) listingC ∅).outcome
    ∧ listingA.job_id ≠ listingC.job_id
    ∧ (insert_listing_with_details (some (PyError.other "disk full")) listingA detailsA stJ1).outcome
        = (insert_listing_with_details (some (PyError.other "disk full")) listingC detailsB ∅).outcome :=
  ⟨rfl, by decide, rfl⟩

/-- Counterexample to C1 as stated: with the store holding the single listing
j1, a detail fetch that succeeds and a combined upsert that raises, the
upsert's error is caught inside the loop and the detail phase returns
success, with the failure only logged. -/
theorem scrape_details_swallows_persistence_failure :
    (insert_listing_with_details (some (PyError.other "disk full")) listingA detailsA stJ1).outcome
        = .error (.runtimeError "Failed to insert job data: disk full" (.other "disk full"))
    ∧ scrape_details (fun _ => .ok detailsA) (fun _ => some (PyError.other "disk full")) stJ1
        = .ok (stJ1, ["Failed to insert job j1: disk full",
                      "Failed to process job j1: Failed to insert job data: disk full"]) :=
  ⟨rfl, rfl⟩

/-- C1 (amended): in the detail phase every per-item failure, including a
persistence failure of the combined upsert, is caught and logged with the
job identifier and the phase returns success; only in the listing phase does
a persistence failure propagate to the caller. -/
theorem scrape_details_catches_upsert_errors
    (fetch : JobListingSchema → Except PyError JobDetailsSchema)
    (dbErr : JobListingSchema → Option PyError) :
    (∀ st, ∃ res, scrape_details fetch dbErr st = .ok res)
    ∧ (∀ (ls : List JobListingSchema) (st : DbState) (l : JobListingSchema)
        (e : PyError) (d : JobDetailsSchema),
        l ∈ ls → fetch l = .ok d → dbErr l = some e →
        ("Failed to process job " ++ l.job_id ++ ": "
            ++ ("Failed to insert job data: " ++ pyErrMsg e))
          ∈ (scrape_details_loop fetch dbErr ls st).2)
    ∧ (∀ (l : JobListingSchema) (rest : List JobListingSchema) (st : DbState) (e : PyError),
        dbErr l = some e →
        scrape_listings_loop dbErr (l :: rest) st
          = .error (.runtimeError ("Failed to insert job listing: " ++ pyErrMsg e) e)) := by
  refine ⟨fun st => ⟨_, rfl⟩, ?_, ?_⟩
  · intro ls
    induction ls with
    | nil => intro st l e d hmem; exact absurd hmem (List.not_mem_nil l)
    | cons a tl ih =>
      intro st l e d hmem hfetch hdb
      rcases List.mem_cons.mp hmem with rfl | hmem
      · simp only [scrape_details_loop, hfetch, hdb, insert_listing_with_details]
        simp [List.mem_append, List.mem_cons, pyErrMsg]
      · simp only [scrape_details_loop]
        apply List.mem_append_right
        exact ih _ l e d hmem hfetch hdb
  · intro l rest st e hdb
    simp [scrape_listings_loop, insert_job_listing, hdb]

/-- Witness for the amended C1: the logged entry for j1 when its combined
upsert fails with a disk error. -/
theorem scrape_details_catches_upsert_errors_witness :
    ("Failed to process job " ++ listingA.job_id ++ ": "
        ++ ("Failed to insert job data: " ++ pyErrMsg (PyError.other "disk full")))
      ∈ (scrape_details_loop (fun _ => .ok detailsA)
          (fun _ => some (PyError.other "disk full")) [listingA] stJ1).2 :=
  (scrape_details_catches_upsert_errors _ _).2.1 [listingA] stJ1 listingA
    (PyError.other "disk full") detailsA (List.mem_singleton.mpr rfl) rfl rfl

/-- A key present after an upsert was present before or is the upserted
key. -/
theorem mem_upsertRow_keys {α : Type} (k0 k : String) (v : α)
    (rows : List (String × α))
    (h : k ∈ (upsertRow k0 v rows).map Prod.fst) :
    k ∈ rows.map Prod.fst ∨ k = k0 := by
  unfold upsertRow at h
  by_cases hany : rows.any (fun r => r.1 = k0)
  · rw [if_pos hany, List.map_map] at h
    rcases List.mem_map.mp h with ⟨r, hr, hrk⟩
    by_cases hrk0 : r.1 = k0
    · right
      simp only [Function.comp, hrk0, if_true] at hrk
      exact hrk.symm
    · left
      simp only [Function.comp, hrk0, if_false] at hrk
      exact List.mem_map.mpr ⟨r, hr, hrk⟩
  · rw [if_neg hany, List.map_append] at h
    rcases List.mem_append.mp h with h | h
    · left; exact h
    · right; simpa using h

/-- Counterexample to C6 as stated: enriching the stored listing j1 with
content whose embedded identifier is j2 makes the orchestrator persist a
detail row keyed j2 — an identifier that differs from the listing being
enriched and was never observed as a listing. -/
theorem detail_identifier_from_content :
    scrape_details (fun _ => format_job_details envId detailReduxB) (fun _ => none) stJ1
        = .ok ({ listings := [("j1", listingA)], details := [("j2", detailsB)] }, [])
    ∧ detailsB.job_id ≠ listingA.job_id
    ∧ "j2" ∉ stJ1.listings.map Prod.fst :=
  ⟨rfl, by decide, by decide⟩

/-- C6 (amended): the detail record's identifier is read from the fetched
content; whenever every successful fetch embeds the enriched listing's own
identifier, every detail key present after the detail loop was present
before or is the identifier of a listing in the processed batch. -/
theorem details_keyed_by_observed_listing
    (fetch : JobListingSchema → Except PyError JobDetailsSchema)
    (dbErr : JobListingSchema → Option PyError)
    (hpreserve : ∀ l d, fetch l = .ok d → d.job_id = l.job_id) :
    ∀ (ls : List JobListingSchema) (st : DbState) (k : String),
      k ∈ ((scrape_details_loop fetch dbErr ls st).1).details.map Prod.fst →
      k ∈ st.details.map Prod.fst ∨ ∃ l, l ∈ ls ∧ k = l.job_id := by
  intro ls
  induction ls with
  | nil =>
    intro st k h
    left
    simpa [scrape_details_loop] using h
  | cons a tl ih =>
    intro st k h
    cases hfetch : fetch a with
    | error e =>
      simp only [scrape_details_loop, hfetch] at h
      rcases ih st k h with h2 | ⟨l, hl, hk⟩
      · left; exact h2
      · right; exact ⟨l, List.mem_cons_of_mem a hl, hk⟩
    | ok d =>
      cases hdb : dbErr a with
      | some e =>
        simp only [scrape_details_loop, hfetch, hdb, insert_listing_with_details] at h
        rcases ih _ k h with h2 | ⟨l, hl, hk⟩
        · left; exact h2
        · right; exact ⟨l, List.mem_cons_of_mem a hl, hk⟩
      | none =>
        simp only [scrape_details_loop, hfetch, hdb, insert_listing_with_details] at h
        rcases ih _ k h with h2 | ⟨l, hl, hk⟩
        · rcases mem_upsertRow_keys d.job_id k d st.details h2 with h3 | h3
          · left; exact h3
          · right
            exact ⟨a, List.mem_cons_self a tl, by rw [h3, hpreserve a d hfetch]⟩
        · right; exact ⟨l, List.mem_cons_of_mem a hl, hk⟩

/-- Witness for the amended C6: an identifier-preserving fetch over the
store holding only j1 yields detail keys drawn from the processed batch. -/
theorem details_keyed_by_observed_listing_witness :
    "j1" ∈ stJ1.details.map Prod.fst ∨ ∃ l, l ∈ [listingA] ∧ "j1" = l.job_id :=
  details_keyed_by_observed_listing fetchSame (fun _ => none)
    (fun l d h => by simp [fetchSame] at h; rw [← h]) [listingA] stJ1 "j1" (by decide)

/-- A well-formed raw job entry formats without raising. -/
theorem format_job_listing_ok (validIso : String → Bool) (j : RawJob)
    (h : j.wf = true) :
    ∃ r, format_job_listing validIso j = .ok r := by
  obtain ⟨jid, jti, jte, jco, jlo, jld, jsa, jwt, jcl, jwa⟩ := j
  unfold RawJob.wf at h
  rw [Bool.and_eq_true, Bool.and_eq_true] at h
  obtain ⟨⟨h1, h2⟩, h3⟩ := h
  dsimp only at h1 h2 h3
  obtain ⟨dstr, hd⟩ := Option.isSome_iff_exists.mp h2
  obtain ⟨wts, hw⟩ := Option.isSome_iff_exists.mp h3
  subst hd
  subst hw
  cases jlo with
  | none => simp at h1
  | some ls =>
    cases ls with
    | nil => simp at h1
    | cons loc0 rest =>
      obtain ⟨lab, ccopt⟩ := loc0
      obtain ⟨cc, hcc⟩ := Option.isSome_iff_exists.mp (by simpa using h1)
      subst hcc
      exact ⟨_, rfl⟩

/-- A list of fallible steps that all succeed traverses to a success. -/
theorem mapM_ok {α β : Type} (f : α → Except PyError β) :
    ∀ (l : List α), (∀ a ∈ l, ∃ b, f a = .ok b) → ∃ bs, l.mapM f = .ok bs := by
  intro l
  induction l with
  | nil => intro _; exact ⟨[], rfl⟩
  | cons a tl ih =>
    intro h
    obtain ⟨b, hb⟩ := h a (List.mem_cons_self a tl)
    obtain ⟨bs, hbs⟩ := ih (fun x hx => h x (List.mem_cons_of_mem a hx))
    refine ⟨b :: bs, ?_⟩
    rw [List.mapM_cons, hb, hbs]
    rfl

/-- Counterexample to C5 as stated: content whose embedded jobs array holds
one entry with every optional field missing makes extract_job_listings raise
an IndexError (at the locations subscription), rather than return a list. -/
theorem extract_listings_raises_on_empty_entry :
    extract_job_listings envId (fun _ => dataBad) "<html></html>"
        = .error PyError.indexError
    ∧ format_job_listings envId.validIso dataBad = .error PyError.indexError :=
  ⟨rfl, rfl⟩

/-- C5 (amended): the listing extractor returns the empty list whenever the
content has no matching data block or an empty jobs array, and it returns a
list without raising whenever every embedded job entry carries a nonempty
locations array with a countryCode, a listingDate, and a workTypes array;
entries missing one of those raise. -/
theorem extract_listings_total_on_wf :
    (∀ (data : ReduxData) (validIso : String → Bool),
      ((data.results.getD default).results.getD default).jobs.getD [] = [] →
      format_job_listings validIso data = .ok [])
    ∧ (∀ (data : ReduxData) (validIso : String → Bool),
      (∀ j ∈ ((data.results.getD default).results.getD default).jobs.getD [],
        j.wf = true) →
      ∃ rs, format_job_listings validIso data = .ok rs) := by
  constructor
  · intro data validIso h
    unfold format_job_listings
    rw [h]
    rfl
  · intro data validIso h
    unfold format_job_listings
    cases hjl : ((data.results.getD default).results.getD default).jobs.getD [] with
    | nil => exact ⟨[], rfl⟩
    | cons j0 rest =>
      rw [hjl] at h
      exact mapM_ok (format_job_listing validIso) (j0 :: rest)
        (fun a ha => format_job_listing_ok validIso a (h a ha))

/-- Witness for the amended C5 at the well-formed single-entry data. -/
theorem extract_listings_total_on_wf_witness :
    ∃ rs, format_job_listings envId.validIso dataGood = .ok rs :=
  extract_listings_total_on_wf.2 dataGood envId.validIso (by decide)

/-- A first-attempt success returns immediately: one invocation, no waits. -/
theorem tenacity_retry_first_ok {α : Type} (op : ℕ → Except PyError α) (a : α)
    (h : op 1 = .ok a) :
    tenacity_retry 3 5 op = { result := .ok a, attempts := 1, waits := [] } := by
  unfold tenacity_retry retryGo
  rw [h]

/-- Three failed attempts sleep 5 seconds twice and raise RetryError wrapping
the third failure. -/
theorem tenacity_retry_all_fail {α : Type} (op : ℕ → Except PyError α)
    (e1 e2 e3 : PyError)
    (h1 : op 1 = .error e1) (h2 : op 2 = .error e2) (h3 : op 3 = .error e3) :
    tenacity_retry 3 5 op
      = { result := .error (.retryError e3), attempts := 3, waits := [5, 5] } := by
  unfold tenacity_retry
  unfold retryGo
  rw [h1]
  unfold retryGo
  rw [h2]
  unfold retryGo
  rw [h3]

/-- Counterexample to C3 as stated: with a fetch that always raises a
TypeError, the exception propagated after exhaustion is the RetryError
wrapper, not the last failure itself, and it is byte-identical for pages 7
and 8 — it carries no page identity. -/
theorem retry_propagates_wrapper_without_identity :
    (scrape_job_listing failFetch 7).result
        = .error (.retryError
            (.runtimeError "Failed to scrape job listings: TypeError" PyError.typeError))
    ∧ (scrape_job_listing failFetch 7).result = (scrape_job_listing failFetch 8).result
    ∧ (scrape_job_listing failFetch 7).result
        ≠ .error (.runtimeError "Failed to scrape job listings: TypeError" PyError.typeError) :=
  ⟨rfl, rfl, fun h => PyError.noConfusion (Except.error.inj h)⟩

/-- C3 (amended): the retry wrapper invokes the operation, on failure waits a
fixed 5 seconds and reinvokes up to 3 attempts; a first-attempt success makes
exactly one invocation; when every attempt fails, the propagated exception is
a RetryError wrapping the last failure — for the page and detail scrapers a
RuntimeError chaining the fetch error whose message names the operation kind
but not the page number or URL (those appear in the log line, modelled by
scrape_job_listing_log). -/
theorem retry_wrapper_mechanics {α : Type} :
    (∀ (op : ℕ → Except PyError α) (a : α), op 1 = .ok a →
      tenacity_retry 3 5 op = { result := .ok a, attempts := 1, waits := [] })
    ∧ (∀ (op : ℕ → Except PyError α) (e1 e2 e3 : PyError),
      op 1 = .error e1 → op 2 = .error e2 → op 3 = .error e3 →
      tenacity_retry 3 5 op
        = { result := .error (.retryError e3), attempts := 3, waits := [5, 5] })
    ∧ (∀ (pageFetch : ℕ → ℕ → Except PyError (List JobListingSchema)) (n : ℕ)
        (err : ℕ → PyError),
      (∀ a, pageFetch n a = .error (err a)) →
      scrape_job_listing pageFetch n
        = { result := .error (.retryError (.runtimeError
              ("Failed to scrape job listings: " ++ pyErrMsg (err 3)) (err 3)))
            attempts := 3, waits := [5, 5] })
    ∧ (∀ (detailFetch : String → ℕ → Except PyError JobDetailsSchema) (url : String)
        (err : ℕ → PyError),
      (∀ a, detailFetch url a = .error (err a)) →
      scrape_job_details detailFetch url
        = { result := .error (.retryError (.runtimeError
              ("Failed to scrape job details: " ++ pyErrMsg (err 3)) (err 3)))
            attempts := 3, waits := [5, 5] }) := by
  refine ⟨tenacity_retry_first_ok, tenacity_retry_all_fail, ?_, ?_⟩
  · intro pageFetch n err h
    have hop : ∀ k, scrape_job_listing_attempt pageFetch n k
        = .error (.runtimeError ("Failed to scrape job listings: " ++ pyErrMsg (err k)) (err k)) := by
      intro k
      unfold scrape_job_listing_attempt
      rw [h k]
    exact tenacity_retry_all_fail _ _ _ _ (hop 1) (hop 2) (hop 3)
  · intro detailFetch url err h
    have hop : ∀ k, scrape_job_details_attempt detailFetch url k
        = .error (.runtimeError ("Failed to scrape job details: " ++ pyErrMsg (err k)) (err k)) := by
      intro k
      unfold scrape_job_details_attempt
      rw [h k]
    exact tenacity_retry_all_fail _ _ _ _ (hop 1) (hop 2) (hop 3)

/-- Witness for the amended C3: the always-failing fetch on page 7. -/
theorem retry_wrapper_mechanics_witness :
    scrape_job_listing failFetch 7
      = { result := .error (.retryError (.runtimeError
            ("Failed to scrape job listings: " ++ pyErrMsg PyError.typeError)
            PyError.typeError))
          attempts := 3, waits := [5, 5] } :=
  (@retry_wrapper_mechanics (List JobListingSchema)).2.2.1 failFetch 7
    (fun _ => PyError.typeError) (fun _ => rfl)

/-- Setting one position of a list changes a countP total by swapping the
old element's contribution for the new one's. -/
theorem countP_set (p : ℕ → Bool) :
    ∀ (l : List ℕ) (i : ℕ) (v cur : ℕ), l[i]? = some cur →
      (l.set i v).countP p + (if p cur then 1 else 0)
        = l.countP p + (if p v then 1 else 0) := by
  intro l
  induction l with
  | nil => intro i v cur h; simp at h
  | cons a tl ih =>
    intro i v cur h
    cases i with
    | zero =>
      rw [List.getElem?_cons_zero] at h
      obtain rfl : a = cur := Option.some.inj h
      simp only [List.set_cons_zero, List.countP_cons]
      omega
    | succ j =>
      rw [List.getElem?_cons_succ] at h
      simp only [List.set_cons_succ, List.countP_cons]
      have := ih j v cur h
      omega

/-- One enabled scheduler step keeps the number of semaphore holders within
the bound: entering acquire is guarded, leaving acquire releases. -/
theorem semStep_holders_le (m i : ℕ) (pcs pcs2 : List ℕ)
    (h : semStep m pcs i = some pcs2) (hm : semHolders pcs ≤ m) :
    semHolders pcs2 ≤ m := by
  unfold semStep at h
  cases hget : pcs[i]? with
  | none => rw [hget] at h; exact absurd h (by simp)
  | some cur =>
    rw [hget, Option.some_bind] at h
    unfold semHolders at hm ⊢
    by_cases hc0 : cur = 0
    · rw [if_pos hc0] at h
      by_cases hlt : semHolders pcs < m
      · rw [if_pos hlt] at h
        obtain rfl : pcs.set i 1 = pcs2 := Option.some.inj h
        have hc := countP_set (fun q => q = 1) pcs i 1 cur hget
        rw [hc0] at hc
        norm_num at hc
        unfold semHolders at hlt
        omega
      · rw [if_neg hlt] at h
        exact absurd h (by simp)
    · rw [if_neg hc0] at h
      by_cases hc1 : cur = 1
      · rw [if_pos hc1] at h
        obtain rfl : pcs.set i 2 = pcs2 := Option.some.inj h
        have hc := countP_set (fun q => q = 1) pcs i 2 cur hget
        rw [hc1] at hc
        norm_num at hc
        omega
      · rw [if_neg hc1] at h
        by_cases hc2 : cur = 2
        · rw [if_pos hc2] at h
          obtain rfl : pcs.set i 3 = pcs2 := Option.some.inj h
          have hc := countP_set (fun q => q = 1) pcs i 3 cur hget
          rw [hc2] at hc
          norm_num at hc
          omega
        · rw [if_neg hc2] at h
          exact absurd h (by simp)

/-- Along any valid schedule the semaphore-holder count stays within the
bound. -/
theorem semRun_holders_le (m : ℕ) :
    ∀ (sched : List ℕ) (pcs pcs2 : List ℕ),
      semHolders pcs ≤ m → semRun m pcs sched = some pcs2 →
      semHolders pcs2 ≤ m := by
  intro sched
  induction sched with
  | nil =>
    intro pcs pcs2 h0 hrun
    obtain rfl : pcs = pcs2 := Option.some.inj hrun
    exact h0
  | cons i rest ih =>
    intro pcs pcs2 h0 hrun
    unfold semRun at hrun
    cases hstep : semStep m pcs i with
    | none => rw [hstep] at hrun; exact absurd hrun (by simp)
    | some pcs1 =>
      rw [hstep] at hrun
      exact ih pcs1 pcs2 (semStep_holders_le m i pcs pcs1 hstep h0) hrun

/-- Counterexample to C2 as stated: with max_concurrent = 2 and three caller
tasks, the schedule that lets each task finish acquire before its fetch is
valid (the semaphore is released when acquire returns) and ends with all
three tasks simultaneously inside their guarded fetch. -/
theorem concurrency_slot_released_before_fetch :
    semRun 2 [0, 0, 0] [0, 0, 1, 1, 2, 2] = some [2, 2, 2]
    ∧ inCritical [2, 2, 2] = 3
    ∧ ¬ inCritical [2, 2, 2] ≤ 2 :=
  ⟨rfl, rfl, by decide⟩

/-- C2 (amended): the semaphore scope in the source spans only the body of
acquire(), so what the bound max_concurrent limits is the number of tasks
simultaneously inside acquire; from any start within the bound, every valid
schedule keeps the holder count at most max_concurrent — while the guarded
fetches after acquire returns are not bounded, as the counterexample shows. -/
theorem semaphore_bounds_acquire_section (m : ℕ) (pcs0 : List ℕ)
    (h0 : semHolders pcs0 ≤ m) :
    ∀ (sched : List ℕ) (pcsF : List ℕ),
      semRun m pcs0 sched = some pcsF → semHolders pcsF ≤ m :=
  fun sched pcsF => semRun_holders_le m sched pcs0 pcsF h0

/-- Witness for the amended C2: two tasks inside acquire after a valid
two-step schedule under max_concurrent = 2. -/
theorem semaphore_bounds_acquire_section_witness :
    semHolders [1, 1, 0] ≤ 2 :=
  semaphore_bounds_acquire_section 2 [0, 0, 0] (by decide) [0, 1] [1, 1, 0] (by decide)

end JobsScraper
